import Mathlib

/-!
# nx-suspend-test: a shallow embedding of `source/main.c`

The program only calls platform primitives (threads, semaphores, console,
clock).  Every platform call is modelled as an event appended to a log, and
every value a platform call hands back comes from an oracle.  The log is kept
newest-first in the running state; `trace` is the log in program order.
-/

namespace NxSuspendTest

/-! ## Constants of the source -/

/-- Source line 7: `static const uint64_t sleepNsec = 1000000000;`, one second. -/
def sleepNsec : Nat := 1000000000

/-- Source line 8: `static const int numThreads = 4;`. -/
def numThreads : Nat := 4

/-- Multiplication in `uint64_t`. -/
def mulU64 (a b : Nat) : Nat := (a * b) % 2 ^ 64

/-- A `Result` (an unsigned 32-bit value) handed to a `%d` conversion: the same
32 bits read as a signed `int`. -/
def asInt32 (x : Nat) : Int :=
  if x % 4294967296 < 2147483648 then Int.ofNat (x % 4294967296)
  else Int.ofNat (x % 4294967296) - 4294967296

/-- A `long` handed to a `%lu` conversion: the same 64 bits read as unsigned. -/
def asULong (x : Int) : Nat := (x % 2 ^ 64).toNat

/-! ## Data -/

/-- The C `struct timespec`. -/
structure Timespec where
  tv_sec : Int
  tv_nsec : Int
deriving DecidableEq, Repr

/-- The source `struct ThreadArgs`; `sem` is the address of the semaphore. -/
structure ThreadArgs where
  num : Int
  sem : Nat
  wait : Bool
deriving DecidableEq, Repr

/-- The two thread entry points of the source. -/
inductive Entry where
  | threadFuncSuspend
  | threadFuncLoop
deriving DecidableEq, Repr

/-- What the `void *` argument of `threadCreate` points at. -/
inductive Arg where
  | mainThreadHandle (h : Nat)
  | args (a : ThreadArgs)
deriving DecidableEq, Repr

/-- The format strings of the source, each with the arguments passed to it. -/
inductive Msg where
  /-- Format `"Thread %d @ %lu\n"` -/
  | threadAt (num : Int) (sec : Nat)
  /-- Format `"Thread %d exiting\n"` -/
  | threadExiting (num : Int)
  /-- Format `"Suspending main thread...\n"` -/
  | suspendingMain
  /-- Format `"Resuming main thread...\n"` -/
  | resumingMain
  /-- Format `"%s: Line %d failed with %d\n"` with `__FILE__`, `__LINE__` and the macro argument,
  the last as the `int` that `%d` prints -/
  | failed (line : Nat) (ret : Int)
  /-- Format `"Started threadSuspendTest @ %lu\n"` -/
  | started (nsec : Nat)
  /-- Format `"Main thread resumed!\n"` -/
  | mainResumed
  /-- Format `"Suspending thread %d...\n"` -/
  | suspendingThread (n : Int)
  /-- Format `"Resuming thread %d...\n"` -/
  | resumingThread (n : Int)
  /-- Format `"Exiting threads...\n"` -/
  | exitingThreads
  /-- Format `"Ended threadSuspendTest @ %lu w/ diff %lu\n"` -/
  | ended (nsec : Nat) (diff : Nat)
deriving DecidableEq, Repr

/-- One platform call, with its arguments and the value it returned.
Threads are named by their index in the `threads` array. -/
inductive Event where
  | mutexLock
  | vprintf (m : Msg)
  | consoleUpdate
  | mutexUnlock
  | clock_gettime (t : Timespec)
  | svcSleepThread (nano : Nat)
  | semaphoreInit (sem : Nat) (count : Nat)
  | semaphoreWait (sem : Nat)
  | semaphoreTryWait (sem : Nat) (res : Bool)
  | semaphoreSignal (sem : Nat)
  | envGetMainThreadHandle (h : Nat)
  | svcSetThreadActivity (h : Nat) (paused : Bool) (rc : Nat)
  | threadCreate (slot : Nat) (entry : Entry) (arg : Arg) (stack : Nat) (prio : Nat)
      (cpuid : Int) (rc : Nat)
  | threadStart (slot : Nat) (rc : Nat)
  | threadWaitForExit (slot : Nat) (rc : Nat)
  | threadClose (slot : Nat) (rc : Nat)
  | threadPause (slot : Nat) (rc : Nat)
  | threadResume (slot : Nat) (rc : Nat)
  | consoleInit
  | consoleExit
  | appletMainLoop (b : Bool)
  | hidScanInput
  | hidKeysDown (k : Nat)
deriving DecidableEq, Repr

/-- A log of platform calls, newest first. -/
abbrev Log := List Event

/-- Source `test_printf`: lock the console mutex, print, update the console, unlock. -/
def test_printf (m : Msg) (log : Log) : Log :=
  Event.mutexUnlock :: Event.consoleUpdate :: Event.vprintf m :: Event.mutexLock :: log

/-! ## The worker threads -/

/-- What the platform hands back to a worker running `threadFuncLoop`:
the result of its n-th `semaphoreTryWait` and of its n-th `clock_gettime`. -/
structure LoopOracle where
  semaphoreTryWait : Nat → Bool
  clock_gettime : Nat → Timespec

/-- The `while (!result)` loop of `threadFuncLoop`; `n` counts the passes made
so far, `result` is the last `semaphoreTryWait` result.  `none` when the fuel
runs out before the loop ends. -/
def threadFuncLoop_while (o : LoopOracle) (args : ThreadArgs) :
    Nat → Nat → Bool → Log → Option Log
  | 0, _, _, _ => none
  | fuel + 1, n, result, log =>
    if !result then
      let time := o.clock_gettime n
      let log := Event.clock_gettime time :: log
      let log := test_printf (Msg.threadAt args.num (asULong time.tv_sec)) log
      let log := Event.svcSleepThread sleepNsec :: log
      let result := o.semaphoreTryWait (n + 1)
      let log := Event.semaphoreTryWait args.sem result :: log
      threadFuncLoop_while o args fuel (n + 1) result log
    else
      some log

/-- Source `threadFuncLoop` (lines 29-47). -/
def threadFuncLoop (o : LoopOracle) (args : ThreadArgs) (fuel : Nat) : Option Log :=
  let log? : Option Log :=
    if args.wait then
      some [Event.semaphoreWait args.sem]
    else
      let result := o.semaphoreTryWait 0
      threadFuncLoop_while o args fuel 0 result [Event.semaphoreTryWait args.sem result]
  log?.map (test_printf (Msg.threadExiting args.num))

/-- Source `threadFuncSuspend` (lines 49-56); `activity n` is what the n-th `svcSetThreadActivity`
call returns (the source ignores it). -/
def threadFuncSuspend (activity : Nat → Nat) (handle : Nat) : Log :=
  let log := test_printf Msg.suspendingMain []
  let log := Event.svcSetThreadActivity handle true (activity 0) :: log
  let log := Event.svcSleepThread sleepNsec :: log
  let log := test_printf Msg.resumingMain log
  Event.svcSetThreadActivity handle false (activity 1) :: log

/-! ## The main thread -/

/-- What a platform call on a `Thread *` hands back: its return code and the
value of the `handle` field of that `Thread` after the call. -/
structure ThreadReply where
  rc : Nat
  handle : Nat

/-- The platform as seen by the main thread: for each primitive that hands a
value back, the value handed back by its n-th call. -/
structure Platform where
  clock_gettime : Nat → Timespec
  envGetMainThreadHandle : Nat → Nat
  svcSetThreadActivity : Nat → Nat
  threadCreate : Nat → ThreadReply
  threadStart : Nat → ThreadReply
  threadWaitForExit : Nat → ThreadReply
  threadClose : Nat → ThreadReply
  threadPause : Nat → ThreadReply
  threadResume : Nat → ThreadReply

/-- The state of the main thread inside `threadSuspendTest`: the log, how many
times each primitive was called, and the local variables of the function. -/
structure St where
  log : Log
  nClock : Nat
  nHandle : Nat
  nActivity : Nat
  nCreate : Nat
  nStart : Nat
  nWait : Nat
  nClose : Nat
  nPause : Nat
  nResume : Nat
  result : Bool
  rc : Nat
  threads : List Nat
  args : List ThreadArgs
  start : Timespec
  stop : Timespec
  mainThreadHandle : Nat

/-- The address `&threadSem` of the one semaphore of `threadSuspendTest`. -/
def threadSem : Nat := 0

/-- Entry into `threadSuspendTest`: `result = true`, `threads` zeroed by the
`memset` of line 75, nothing called yet. -/
def St.init : St :=
  { log := [], nClock := 0, nHandle := 0, nActivity := 0, nCreate := 0, nStart := 0,
    nWait := 0, nClose := 0, nPause := 0, nResume := 0, result := true, rc := 0,
    threads := List.replicate numThreads 0,
    args := List.replicate numThreads { num := 0, sem := 0, wait := false },
    start := { tv_sec := 0, tv_nsec := 0 }, stop := { tv_sec := 0, tv_nsec := 0 },
    mainThreadHandle := 0 }

/-- Source `test_printf`, on the state of the main thread; the arguments of
the format are read from the current locals. -/
def St.printf (m : St → Msg) (s : St) : St := { s with log := test_printf (m s) s.log }

/-- An assignment `x = call(...)`: make the call, then store what it returned. -/
def St.assign {α : Type} (call : St → α × St) (store : α → St → St) (s : St) : St :=
  let r := call s
  store r.1 r.2

/-- Store into the local `rc`. -/
def St.setRc (rc : Nat) (s : St) : St := { s with rc := rc }

/-- Store into the local `start`. -/
def St.setStart (t : Timespec) (s : St) : St := { s with start := t }

/-- Store into the local `stop`. -/
def St.setStop (t : Timespec) (s : St) : St := { s with stop := t }

/-- Store into the local `mainThreadHandle`. -/
def St.setMainThreadHandle (h : Nat) (s : St) : St := { s with mainThreadHandle := h }

/-- Store into `args[i]`. -/
def St.setArgs (i : Nat) (a : ThreadArgs) (s : St) : St := { s with args := s.args.set i a }

/-- Call `clock_gettime(CLOCK_MONOTONIC, _)`. -/
def St.clock_gettime (p : Platform) (s : St) : Timespec × St :=
  let t := p.clock_gettime s.nClock
  (t, { s with log := Event.clock_gettime t :: s.log, nClock := s.nClock + 1 })

/-- Call `svcSleepThread(nano)`. -/
def St.svcSleepThread (nano : Nat) (s : St) : St :=
  { s with log := Event.svcSleepThread nano :: s.log }

/-- Call `semaphoreInit(sem, count)`. -/
def St.semaphoreInit (sem count : Nat) (s : St) : St :=
  { s with log := Event.semaphoreInit sem count :: s.log }

/-- Call `semaphoreSignal(sem)`. -/
def St.semaphoreSignal (sem : Nat) (s : St) : St :=
  { s with log := Event.semaphoreSignal sem :: s.log }

/-- Call `envGetMainThreadHandle()`. -/
def St.envGetMainThreadHandle (p : Platform) (s : St) : Nat × St :=
  let h := p.envGetMainThreadHandle s.nHandle
  (h, { s with log := Event.envGetMainThreadHandle h :: s.log, nHandle := s.nHandle + 1 })

/-- Call `svcSetThreadActivity(handle, paused)`, the handle read from the locals. -/
def St.svcSetThreadActivity (p : Platform) (handle : St → Nat) (paused : Bool) (s : St) :
    Nat × St :=
  let r := p.svcSetThreadActivity s.nActivity
  (r, { s with log := Event.svcSetThreadActivity (handle s) paused r :: s.log,
               nActivity := s.nActivity + 1 })

/-- Call `threadCreate(&threads[i], entry, arg, stack, prio, cpuid)`; `arg` is
what the argument pointer points at, read from the locals. -/
def St.threadCreate (p : Platform) (i : Nat) (entry : Entry) (arg : St → Arg) (stack prio : Nat)
    (cpuid : Int) (s : St) : Nat × St :=
  let r := p.threadCreate s.nCreate
  (r.rc, { s with log := Event.threadCreate i entry (arg s) stack prio cpuid r.rc :: s.log,
                  nCreate := s.nCreate + 1, threads := s.threads.set i r.handle })

/-- Call `threadStart(&threads[i])`. -/
def St.threadStart (p : Platform) (i : Nat) (s : St) : Nat × St :=
  let r := p.threadStart s.nStart
  (r.rc, { s with log := Event.threadStart i r.rc :: s.log,
                  nStart := s.nStart + 1, threads := s.threads.set i r.handle })

/-- Call `threadWaitForExit(&threads[i])`. -/
def St.threadWaitForExit (p : Platform) (i : Nat) (s : St) : Nat × St :=
  let r := p.threadWaitForExit s.nWait
  (r.rc, { s with log := Event.threadWaitForExit i r.rc :: s.log,
                  nWait := s.nWait + 1, threads := s.threads.set i r.handle })

/-- Call `threadClose(&threads[i])`. -/
def St.threadClose (p : Platform) (i : Nat) (s : St) : Nat × St :=
  let r := p.threadClose s.nClose
  (r.rc, { s with log := Event.threadClose i r.rc :: s.log,
                  nClose := s.nClose + 1, threads := s.threads.set i r.handle })

/-- Call `threadPause(&threads[i])`. -/
def St.threadPause (p : Platform) (i : Nat) (s : St) : Nat × St :=
  let r := p.threadPause s.nPause
  (r.rc, { s with log := Event.threadPause i r.rc :: s.log,
                  nPause := s.nPause + 1, threads := s.threads.set i r.handle })

/-- Call `threadResume(&threads[i])`. -/
def St.threadResume (p : Platform) (i : Nat) (s : St) : Nat × St :=
  let r := p.threadResume s.nResume
  (r.rc, { s with log := Event.threadResume i r.rc :: s.log,
                  nResume := s.nResume + 1, threads := s.threads.set i r.handle })

/-- The macro `assertZero(ret)` used at source line `line`, `ret` (a `Result`)
read from the locals and printed through `%d`; `Except.error` is the
`goto cleanup`, carrying the state at the jump. -/
def assertZero (line : Nat) (ret : St → Nat) (s : St) : Except St St :=
  if ret s ≠ 0 then
    Except.error
      (St.printf (fun s => Msg.failed line (asInt32 (ret s))) { s with result := false })
  else
    Except.ok s

/-- The macro `assertTrue(ret)` used at source line `line`, `ret` read from
the locals; the third format argument is the value of the asserted expression
itself (a C `int`, 1 or 0). -/
def assertTrue (line : Nat) (ret : St → Bool) (s : St) : Except St St :=
  if !(ret s) then
    Except.error
      (St.printf (fun s => Msg.failed line (if ret s then 1 else 0)) { s with result := false })
  else
    Except.ok s

/-- The values `i` takes in `for (int i = 0; i < n; i += step)`. -/
def forIndices (n step : Nat) : List Nat :=
  (List.range n).filter (fun i => i % step = 0)

/-- Lines 103-105: fill `args[i]`. -/
def initArgs (s : St) : St :=
  (forIndices numThreads 1).foldl
    (fun (s : St) (i : Nat) =>
      St.setArgs i { num := Int.ofNat i + 1, sem := threadSem, wait := decide (i = 3) } s) s

/-- Lines 107-112: create and start the four workers. -/
def createLoop (p : Platform) (s : St) : Except St St :=
  (forIndices numThreads 1).foldlM
    (fun (s : St) (i : Nat) => do
      let s := St.assign
        (St.threadCreate p i Entry.threadFuncLoop
          (fun s => Arg.args (s.args.getD i { num := 0, sem := 0, wait := false }))
          (128 * 1024) 0x3B (-2)) St.setRc s
      let s ← assertZero 109 St.rc s
      let s := St.assign (St.threadStart p i) St.setRc s
      assertZero 111 St.rc s) s

/-- Lines 115-119: pause every third worker. -/
def pauseLoop (p : Platform) (s : St) : Except St St :=
  (forIndices numThreads 3).foldlM
    (fun (s : St) (i : Nat) => do
      let s := St.printf (fun _ => Msg.suspendingThread (Int.ofNat i + 1)) s
      let s := St.assign (St.threadPause p i) St.setRc s
      assertZero 118 St.rc s) s

/-- Lines 122-126: resume every third worker. -/
def resumeLoop (p : Platform) (s : St) : Except St St :=
  (forIndices numThreads 3).foldlM
    (fun (s : St) (i : Nat) => do
      let s := St.printf (fun _ => Msg.resumingThread (Int.ofNat i + 1)) s
      let s := St.assign (St.threadResume p i) St.setRc s
      assertZero 125 St.rc s) s

/-- Lines 130-132: signal the semaphore once per worker. -/
def signalLoop (s : St) : St :=
  (forIndices numThreads 1).foldl (fun (s : St) (_ : Nat) => St.semaphoreSignal threadSem s) s

/-- Lines 133-138: wait for and close the four workers. -/
def joinLoop (p : Platform) (s : St) : Except St St :=
  (forIndices numThreads 1).foldlM
    (fun (s : St) (i : Nat) => do
      let s := St.assign (St.threadWaitForExit p i) St.setRc s
      let s ← assertZero 135 St.rc s
      let s := St.assign (St.threadClose p i) St.setRc s
      assertZero 137 St.rc s) s

/-- Lines 79-141 of `threadSuspendTest`: everything before the `cleanup:`
label.  `Except.ok` is reaching `goto end` at line 142, `Except.error` is a
`goto cleanup` from one of the assertion macros. -/
def threadSuspendTest_steps (p : Platform) (s : St) : Except St St := do
  let s := St.assign (St.clock_gettime p) St.setStart s
  let s := St.printf (fun s => Msg.started (asULong s.start.tv_nsec)) s
  -- Test suspending self
  let s := St.assign (St.envGetMainThreadHandle p) St.setMainThreadHandle s
  let s ← assertTrue 84 (fun s => decide (s.mainThreadHandle ≠ 0)) s
  let s := St.assign (St.svcSetThreadActivity p St.mainThreadHandle true) St.setRc s
  let s ← assertTrue 86 (fun s => decide (s.rc = 0xF401)) s
  -- Test suspending self from other thread
  let s := St.assign
    (St.threadCreate p 0 Entry.threadFuncSuspend (fun s => Arg.mainThreadHandle s.mainThreadHandle)
      (128 * 1024) 0x3B (-2)) St.setRc s
  let s ← assertZero 90 St.rc s
  let s := St.assign (St.threadStart p 0) St.setRc s
  let s ← assertZero 92 St.rc s
  let s := St.assign (St.threadWaitForExit p 0) St.setRc s
  let s ← assertZero 94 St.rc s
  let s := St.assign (St.threadClose p 0) St.setRc s
  let s ← assertZero 96 St.rc s
  let s := St.printf (fun _ => Msg.mainResumed) s
  let s := St.svcSleepThread sleepNsec s
  -- Test suspending multiple threads
  let s := St.semaphoreInit threadSem 0 s
  let s := initArgs s
  let s ← createLoop p s
  let s := St.svcSleepThread sleepNsec s
  let s ← pauseLoop p s
  let s := St.svcSleepThread (mulU64 sleepNsec 3) s
  let s ← resumeLoop p s
  let s := St.svcSleepThread (mulU64 sleepNsec 3) s
  let s := St.printf (fun _ => Msg.exitingThreads) s
  let s := signalLoop s
  let s ← joinLoop p s
  let s := St.assign (St.clock_gettime p) St.setStop s
  let s := St.printf
    (fun s => Msg.ended (asULong s.stop.tv_nsec) (asULong (s.stop.tv_nsec - s.start.tv_nsec))) s
  pure s

/-- Lines 146-149, the body of the `cleanup:` loop for index `i`: wait for and
close `threads[i]` if its `handle` field is non-zero; the return codes are
discarded. -/
def cleanupBody (p : Platform) (s : St) (i : Nat) : St :=
  if s.threads.getD i 0 ≠ 0 then
    let s := (St.threadWaitForExit p i s).2
    let s := (St.threadClose p i s).2
    s
  else s

/-- Lines 144-150, the `cleanup:` loop. -/
def threadSuspendTest_cleanup (p : Platform) (s : St) : St :=
  (forIndices numThreads 1).foldl (cleanupBody p) s

/-- Source `threadSuspendTest`: the returned `bool result` and the final
state, whose log holds the calls the function made. -/
def threadSuspendTest (p : Platform) : Bool × St :=
  match threadSuspendTest_steps p St.init with
  | Except.ok s => (s.result, s)
  | Except.error s =>
    let s := threadSuspendTest_cleanup p s
    (s.result, s)

/-- The platform calls of a run of `threadSuspendTest`, in program order. -/
def trace (p : Platform) : List Event := (threadSuspendTest p).2.log.reverse

/-- The platform calls of the test steps of a run (lines 79-141, up to the
failure line of the first failing assertion), in program order. -/
def stepsTrace (p : Platform) : List Event :=
  match threadSuspendTest_steps p St.init with
  | Except.ok s => s.log.reverse
  | Except.error s => s.log.reverse

/-! ## `main` -/

/-- What the platform hands back inside the input loop of `main`: the
result of the n-th `appletMainLoop` call and the mask returned by the
`hidKeysDown` call of that same pass. -/
structure Input where
  appletMainLoop : Nat → Bool
  hidKeysDown : Nat → Nat

/-- The `while (appletMainLoop())` loop of `main` (lines 161-166); `n` counts the
passes made so far.  `none` when the fuel runs out before the loop ends. -/
def main_while (KEY_PLUS : Nat) (inp : Input) : Nat → Nat → Log → Option Log
  | 0, _, _ => none
  | fuel + 1, n, log =>
    let b := inp.appletMainLoop n
    let log := Event.appletMainLoop b :: log
    if b then
      let log := Event.hidScanInput :: log
      let kdown := inp.hidKeysDown n
      let log := Event.hidKeysDown kdown :: log
      if kdown &&& KEY_PLUS ≠ 0 then
        some log
      else
        main_while KEY_PLUS inp fuel (n + 1) log
    else
      some log

/-- Source `main`; the constant `KEY_PLUS` of the platform headers is a
parameter.  Returns the exit status and the log; the value `threadSuspendTest`
returns is dropped, its calls go on top of the log. -/
def main (KEY_PLUS : Nat) (p : Platform) (inp : Input) (fuel : Nat) : Option (Int × Log) :=
  let log := [Event.consoleInit]
  let log := (threadSuspendTest p).2.log ++ log
  match main_while KEY_PLUS inp fuel 0 log with
  | none => none
  | some log => some (0, Event.consoleExit :: log)

/-! ## Vocabulary of the claims -/

/-- The value a checked call must return for its assertion to pass: a non-zero
main thread handle, `0xF401` from `svcSetThreadActivity`, `0` from every call
on a `Thread`.  Calls without a checked result count as passing. -/
def Event.expected : Event → Bool
  | Event.envGetMainThreadHandle h => decide (h ≠ 0)
  | Event.svcSetThreadActivity _ _ rc => decide (rc = 0xF401)
  | Event.threadCreate _ _ _ _ _ _ rc => decide (rc = 0)
  | Event.threadStart _ rc => decide (rc = 0)
  | Event.threadWaitForExit _ rc => decide (rc = 0)
  | Event.threadClose _ rc => decide (rc = 0)
  | Event.threadPause _ rc => decide (rc = 0)
  | Event.threadResume _ rc => decide (rc = 0)
  | _ => true

/-- Every checked call of the log returned its expected value. -/
def AllExpected (l : Log) : Prop := ∀ x ∈ l, x.expected = true

/-- The last number of the failure line printed when the check on the call
`e` fails: the return code, as `%d` prints it, for the calls checked with
`assertZero`, and `0` (the value of the failed comparison) for the two checked
with `assertTrue`. -/
def Event.failArg : Event → Int
  | Event.threadCreate _ _ _ _ _ _ rc => asInt32 rc
  | Event.threadStart _ rc => asInt32 rc
  | Event.threadWaitForExit _ rc => asInt32 rc
  | Event.threadClose _ rc => asInt32 rc
  | Event.threadPause _ rc => asInt32 rc
  | Event.threadResume _ rc => asInt32 rc
  | _ => 0

/-- The same call, had it returned its expected return code. -/
def Event.asExpected : Event → Event
  | Event.svcSetThreadActivity h b _ => Event.svcSetThreadActivity h b 0xF401
  | Event.threadCreate i en a st pr c _ => Event.threadCreate i en a st pr c 0
  | Event.threadStart i _ => Event.threadStart i 0
  | Event.threadWaitForExit i _ => Event.threadWaitForExit i 0
  | Event.threadClose i _ => Event.threadClose i 0
  | Event.threadPause i _ => Event.threadPause i 0
  | Event.threadResume i _ => Event.threadResume i 0
  | e => e

/-- The log (newest first) of the run of the test steps in which every check
passes, for main thread handle `h` and clock readings `t0`, `t1`. -/
def happyLog (h : Nat) (t0 t1 : Timespec) : Log :=
  test_printf (Msg.ended (asULong t1.tv_nsec) (asULong (t1.tv_nsec - t0.tv_nsec)))
  (Event.clock_gettime t1 ::
   Event.threadClose 3 0 :: Event.threadWaitForExit 3 0 ::
   Event.threadClose 2 0 :: Event.threadWaitForExit 2 0 ::
   Event.threadClose 1 0 :: Event.threadWaitForExit 1 0 ::
   Event.threadClose 0 0 :: Event.threadWaitForExit 0 0 ::
   Event.semaphoreSignal 0 :: Event.semaphoreSignal 0 ::
   Event.semaphoreSignal 0 :: Event.semaphoreSignal 0 ::
   test_printf Msg.exitingThreads
  (Event.svcSleepThread 3000000000 ::
   Event.threadResume 3 0 ::
   test_printf (Msg.resumingThread 4)
  (Event.threadResume 0 0 ::
   test_printf (Msg.resumingThread 1)
  (Event.svcSleepThread 3000000000 ::
   Event.threadPause 3 0 ::
   test_printf (Msg.suspendingThread 4)
  (Event.threadPause 0 0 ::
   test_printf (Msg.suspendingThread 1)
  (Event.svcSleepThread 1000000000 ::
   Event.threadStart 3 0 ::
   Event.threadCreate 3 Entry.threadFuncLoop (Arg.args ⟨4, 0, true⟩) 131072 59 (-2) 0 ::
   Event.threadStart 2 0 ::
   Event.threadCreate 2 Entry.threadFuncLoop (Arg.args ⟨3, 0, false⟩) 131072 59 (-2) 0 ::
   Event.threadStart 1 0 ::
   Event.threadCreate 1 Entry.threadFuncLoop (Arg.args ⟨2, 0, false⟩) 131072 59 (-2) 0 ::
   Event.threadStart 0 0 ::
   Event.threadCreate 0 Entry.threadFuncLoop (Arg.args ⟨1, 0, false⟩) 131072 59 (-2) 0 ::
   Event.semaphoreInit 0 0 ::
   Event.svcSleepThread 1000000000 ::
   test_printf Msg.mainResumed
  (Event.threadClose 0 0 :: Event.threadWaitForExit 0 0 :: Event.threadStart 0 0 ::
   Event.threadCreate 0 Entry.threadFuncSuspend (Arg.mainThreadHandle h) 131072 59 (-2) 0 ::
   Event.svcSetThreadActivity h true 62465 ::
   Event.envGetMainThreadHandle h ::
   test_printf (Msg.started (asULong t0.tv_nsec))
   [Event.clock_gettime t0])))))))

/-- The platform gives the expected reply to every checked call of the test
steps: the first `envGetMainThreadHandle` returns a non-zero handle, the first
`svcSetThreadActivity` returns exactly `0xF401`, and the first five
`threadCreate`, `threadStart`, `threadWaitForExit` and `threadClose` calls and
the first two `threadPause` and `threadResume` calls return 0. -/
def ExpectedReplies (p : Platform) : Prop :=
  p.envGetMainThreadHandle 0 ≠ 0 ∧ p.svcSetThreadActivity 0 = 0xF401 ∧
  (∀ n < 5, (p.threadCreate n).rc = 0) ∧ (∀ n < 5, (p.threadStart n).rc = 0) ∧
  (∀ n < 5, (p.threadWaitForExit n).rc = 0) ∧ (∀ n < 5, (p.threadClose n).rc = 0) ∧
  (∀ n < 2, (p.threadPause n).rc = 0) ∧ (∀ n < 2, (p.threadResume n).rc = 0)

/-- What the test steps (lines 79-141) do, whichever way they end.
Reaching line 142: every check passed and the log is `happyLog`.
Jumping to `cleanup`: `result` is false, the log ends with the failure line of
a check on a call `e` that did not return its expected value, every call before
`e` did, and up to the return code of `e` the calls made are an initial part
of the calls of the all-pass run. -/
def StepsSpec (p : Platform) : Except St St → Prop
  | Except.ok s => ExpectedReplies p ∧ s.result = true ∧ AllExpected s.log ∧
      s.log = happyLog (p.envGetMainThreadHandle 0) (p.clock_gettime 0) (p.clock_gettime 1)
  | Except.error s => ¬ExpectedReplies p ∧ s.result = false ∧ ∃ line e pre,
      s.log = test_printf (Msg.failed line e.failArg) (e :: pre) ∧ e.expected = false ∧
      AllExpected pre ∧
      e.asExpected :: pre =
        (happyLog (p.envGetMainThreadHandle 0) (p.clock_gettime 0) (p.clock_gettime 1)).drop
          ((happyLog (p.envGetMainThreadHandle 0) (p.clock_gettime 0) (p.clock_gettime 1)).length -
            (pre.length + 1))

/-- In the run on platform `p`, every checked call returns its expected value. -/
def ChecksPass (p : Platform) : Prop := AllExpected (stepsTrace p)

/-- The kinds of call made on a `Thread`. -/
inductive Op where
  | create
  | start
  | waitForExit
  | close
  | pause
  | resume
deriving DecidableEq, Repr

/-- The call on a `Thread` an event stands for, with the index of the thread
in the `threads` array. -/
def Event.threadOp : Event → Option (Op × Nat)
  | Event.threadCreate i _ _ _ _ _ _ => some (Op.create, i)
  | Event.threadStart i _ => some (Op.start, i)
  | Event.threadWaitForExit i _ => some (Op.waitForExit, i)
  | Event.threadClose i _ => some (Op.close, i)
  | Event.threadPause i _ => some (Op.pause, i)
  | Event.threadResume i _ => some (Op.resume, i)
  | _ => none

/-- The calls of a run made after the test steps ended: the `cleanup:` loop. -/
def cleanupTrace (p : Platform) : List Event := (trace p).drop (stepsTrace p).length

/-- Wait-for-exit then close, once each, on every array slot whose `handle`
field in `hs` is non-zero, in index order. -/
def cleanupCalls (hs : List Nat) : List (Op × Nat) :=
  ((forIndices numThreads 1).filter (fun i => hs.getD i 0 ≠ 0)).flatMap
    (fun i => [(Op.waitForExit, i), (Op.close, i)])

/-- An event that belongs to the test steps proper: creating, starting,
pausing or resuming a thread, signalling the semaphore, or printing the
`Ended threadSuspendTest` line. -/
def Event.isTestStep : Event → Bool
  | Event.threadCreate _ _ _ _ _ _ _ => true
  | Event.threadStart _ _ => true
  | Event.threadPause _ _ => true
  | Event.threadResume _ _ => true
  | Event.semaphoreSignal _ => true
  | Event.vprintf (Msg.ended _ _) => true
  | _ => false

/-- The thread a `threadCreate` call asks for: array slot, entry point and
what the argument points at. -/
def Event.created : Event → Option (Nat × Entry × Arg)
  | Event.threadCreate i en a _ _ _ _ => some (i, en, a)
  | _ => none

/-- The create, start, wait-for-exit and close calls. -/
def Event.lifecycle : Event → Option (Op × Nat)
  | Event.threadCreate i _ _ _ _ _ _ => some (Op.create, i)
  | Event.threadStart i _ => some (Op.start, i)
  | Event.threadWaitForExit i _ => some (Op.waitForExit, i)
  | Event.threadClose i _ => some (Op.close, i)
  | _ => none

/-- The pause and resume calls. -/
def Event.pauseResume : Event → Option (Op × Nat)
  | Event.threadPause i _ => some (Op.pause, i)
  | Event.threadResume i _ => some (Op.resume, i)
  | _ => none

/-- The array slot of a `threadPause` call. -/
def Event.paused : Event → Option Nat
  | Event.threadPause i _ => some i
  | _ => none

/-- The array slot of a `threadResume` call. -/
def Event.resumed : Event → Option Nat
  | Event.threadResume i _ => some i
  | _ => none

/-- The duration of a `svcSleepThread` call. -/
def Event.slept : Event → Option Nat
  | Event.svcSleepThread n => some n
  | _ => none

/-- The landmarks the sleeps of the main thread are placed between. -/
inductive Mark where
  | op (o : Op) (slot : Nat)
  | sleep (nano : Nat)
  | signal
deriving DecidableEq, Repr

/-- The landmark an event stands for, if any. -/
def Event.mark : Event → Option Mark
  | Event.threadCreate i _ _ _ _ _ _ => some (Mark.op Op.create i)
  | Event.threadStart i _ => some (Mark.op Op.start i)
  | Event.threadWaitForExit i _ => some (Mark.op Op.waitForExit i)
  | Event.threadClose i _ => some (Mark.op Op.close i)
  | Event.threadPause i _ => some (Mark.op Op.pause i)
  | Event.threadResume i _ => some (Mark.op Op.resume i)
  | Event.svcSleepThread n => some (Mark.sleep n)
  | Event.semaphoreSignal _ => some Mark.signal
  | _ => none

/-- Record the call `c` in the per-thread histories `acc` (newest thread
first): a create opens the history of a new thread in its slot, any other
call goes to the newest thread of its slot. -/
def recordCall (acc : List (Nat × List Op)) (c : Op × Nat) : List (Nat × List Op) :=
  if c.1 = Op.create then (c.2, [Op.create]) :: acc
  else
    match acc with
    | [] => [(c.2, [c.1])]
    | (j, ops) :: rest =>
      if j = c.2 then (j, ops ++ [c.1]) :: rest else (j, ops) :: recordCall rest c

/-- The history of every thread of a sequence of lifecycle calls, in creation
order: its array slot and the calls made on it. -/
def histories (calls : List (Op × Nat)) : List (Nat × List Op) :=
  (calls.foldl recordCall []).reverse

/-- The worker a `threadCreate` call asks for when that worker is created with
`wait = true`: its array slot and its number. -/
def waitingWorker : Nat × Entry × Arg → Option (Nat × Int)
  | (i, Entry.threadFuncLoop, Arg.args a) => if a.wait then some (i, a.num) else none
  | _ => none

/-- A platform on which every call succeeds: the clock reads 100 s + 500 ns,
then 108 s + 700 ns; the main thread handle is `0xD001`; suspending the calling
thread is refused with `0xF401`; every call on a `Thread` returns 0 and leaves
`0x8001` in the `handle` field. -/
def goodPlatform : Platform :=
  { clock_gettime := fun n => { tv_sec := 100 + 8 * Int.ofNat n, tv_nsec := 500 + 200 * Int.ofNat n },
    envGetMainThreadHandle := fun _ => 0xD001,
    svcSetThreadActivity := fun _ => 0xF401,
    threadCreate := fun _ => { rc := 0, handle := 0x8001 },
    threadStart := fun _ => { rc := 0, handle := 0x8001 },
    threadWaitForExit := fun _ => { rc := 0, handle := 0x8001 },
    threadClose := fun _ => { rc := 0, handle := 0x8001 },
    threadPause := fun _ => { rc := 0, handle := 0x8001 },
    threadResume := fun _ => { rc := 0, handle := 0x8001 } }

/-- The message of a `vprintf` call. -/
def Event.printed : Event → Option Msg
  | Event.vprintf m => some m
  | _ => none

/-- The result of a `semaphoreTryWait` call. -/
def Event.tryWaited : Event → Option Bool
  | Event.semaphoreTryWait _ r => some r
  | _ => none

/-- A call that takes one unit from the semaphore: a `semaphoreWait`, or a
`semaphoreTryWait` that succeeds. -/
def Event.acquired : Event → Bool
  | Event.semaphoreWait _ => true
  | Event.semaphoreTryWait _ r => r
  | _ => false

/-- The handle and the paused flag of a `svcSetThreadActivity` call. -/
def Event.activity : Event → Option (Nat × Bool)
  | Event.svcSetThreadActivity h b _ => some (h, b)
  | _ => none

/-- A `svcSetThreadActivity` or `svcSleepThread` call. -/
def Event.isActivityOrSleep : Event → Bool
  | Event.svcSetThreadActivity _ _ _ => true
  | Event.svcSleepThread _ => true
  | _ => false

/-- The result of an `appletMainLoop` call. -/
def Event.mainLoopResult : Event → Option Bool
  | Event.appletMainLoop b => some b
  | _ => none

/-- The calls of pass `n` of the `while (!result)` loop of `threadFuncLoop`, in
program order. -/
def loopPass (o : LoopOracle) (args : ThreadArgs) (n : Nat) : List Event :=
  [Event.clock_gettime (o.clock_gettime n), Event.mutexLock,
   Event.vprintf (Msg.threadAt args.num (asULong (o.clock_gettime n).tv_sec)),
   Event.consoleUpdate, Event.mutexUnlock, Event.svcSleepThread sleepNsec,
   Event.semaphoreTryWait args.sem (o.semaphoreTryWait (n + 1))]

/-- The calls of a pass of the input loop of `main` that gets past
`appletMainLoop`, in program order. -/
def inputPass (inp : Input) (n : Nat) : List Event :=
  [Event.appletMainLoop true, Event.hidScanInput, Event.hidKeysDown (inp.hidKeysDown n)]

/-- The calls of the input loop of `main` when it is left in pass `n`, in
program order: `n` full passes, then the pass that ends the loop. -/
def inputLoopTrace (inp : Input) (n : Nat) : List Event :=
  (List.range n).flatMap (inputPass inp) ++
    (if inp.appletMainLoop n then inputPass inp n else [Event.appletMainLoop false])

/-- A `semaphoreWait` call. -/
def Event.isSemaphoreWait : Event → Bool
  | Event.semaphoreWait _ => true
  | _ => false

/-- A `threadCreate` call that starts `threadFuncSuspend` hands it a pointer to
the handle `h`. -/
def Event.suspendsHandle (h : Nat) : Event → Bool
  | Event.threadCreate _ Entry.threadFuncSuspend a _ _ _ _ => decide (a = Arg.mainThreadHandle h)
  | _ => true

/-- The platform `goodPlatform`, except that suspending the calling thread
fails with the unexpected code `0xE401`. -/
def refusedPlatform : Platform :=
  { goodPlatform with svcSetThreadActivity := fun _ => 0xE401 }

/-- The platform `goodPlatform`, except that the second `threadCreate` call
(the one for worker 1, on `threads[0]`) fails with `0xCE01`.  As on
`goodPlatform`, no call resets the `handle` field of `threads[0]`: it keeps the
handle `0x8001` of the suspender thread, which was closed at line 95. -/
def stalePlatform : Platform :=
  { goodPlatform with
    threadCreate := fun n => if n = 1 then { rc := 0xCE01, handle := 0x8001 }
      else { rc := 0, handle := 0x8001 } }

/-- The elapsed time between two clock readings, in nanoseconds. -/
def elapsedNs (start stop : Timespec) : Int :=
  (stop.tv_sec - start.tv_sec) * 1000000000 + (stop.tv_nsec - start.tv_nsec)

/-! ## Evaluating the test steps -/

theorem forIndices_all : forIndices numThreads 1 = [0, 1, 2, 3] := by decide

theorem forIndices_third : forIndices numThreads 3 = [0, 3] := by decide

theorem mulU64_sleepNsec : mulU64 1000000000 3 = 3000000000 := by decide

theorem replicate_threads : List.replicate numThreads (0 : Nat) = [0, 0, 0, 0] := rfl

theorem replicate_args (a : ThreadArgs) : List.replicate numThreads a = [a, a, a, a] := rfl

theorem allExpected_nil : AllExpected [] := by simp [AllExpected]

theorem allExpected_cons (e : Event) (l : Log) :
    AllExpected (e :: l) ↔ e.expected = true ∧ AllExpected l := by
  simp [AllExpected]

theorem allExpected_printf (m : Msg) (l : Log) :
    AllExpected (test_printf m l) ↔ AllExpected l := by
  simp [AllExpected, test_printf, Event.expected]

theorem length_printf (m : Msg) (l : Log) : (test_printf m l).length = l.length + 4 := by
  simp [test_printf]

theorem happyLog_length (h : Nat) (t0 t1 : Timespec) : (happyLog h t0 t1).length = 69 := rfl

theorem drop_printf (m : Msg) (l : Log) (n : Nat) :
    (test_printf m l).drop (n + 4) = l.drop n := by
  simp [test_printf]

theorem assertZero_bind (line : Nat) (ret : St → Nat) (s : St) (f : St → Except St St) :
    (assertZero line ret s >>= f) =
      if ret s = 0 then f s
      else Except.error
        (St.printf (fun s => Msg.failed line (asInt32 (ret s))) { s with result := false }) := by
  unfold assertZero
  by_cases h : ret s = 0 <;> simp [h] <;> rfl

theorem assertTrue_bind (line : Nat) (ret : St → Bool) (s : St) (f : St → Except St St) :
    (assertTrue line ret s >>= f) =
      if ret s = true then f s
      else Except.error
        (St.printf (fun s => Msg.failed line (if ret s then 1 else 0))
          { s with result := false }) := by
  unfold assertTrue
  cases h : ret s <;> simp [h] <;> rfl

theorem assertZero_eq (line : Nat) (ret : St → Nat) (s : St) :
    assertZero line ret s =
      if ret s = 0 then Except.ok s
      else Except.error
        (St.printf (fun s => Msg.failed line (asInt32 (ret s))) { s with result := false }) := by
  unfold assertZero
  by_cases h : ret s = 0 <;> simp [h]

theorem ite_bind_except (c : Prop) [Decidable c] (a : Except St St) (e : St)
    (f : St → Except St St) :
    ((if c then a else Except.error e) >>= f) = if c then a >>= f else Except.error e := by
  split <;> rfl

theorem ok_bind (s : St) (f : St → Except St St) : (Except.ok s >>= f) = f s := rfl

theorem forall_lt_five (P : Nat → Prop) :
    (∀ n < 5, P n) ↔ P 0 ∧ P 1 ∧ P 2 ∧ P 3 ∧ P 4 := by
  constructor
  · intro h
    exact ⟨h 0 (by decide), h 1 (by decide), h 2 (by decide), h 3 (by decide), h 4 (by decide)⟩
  · rintro ⟨h0, h1, h2, h3, h4⟩ n hn
    interval_cases n <;> assumption

theorem forall_lt_two (P : Nat → Prop) : (∀ n < 2, P n) ↔ P 0 ∧ P 1 := by
  constructor
  · intro h
    exact ⟨h 0 (by decide), h 1 (by decide)⟩
  · rintro ⟨h0, h1⟩ n hn
    interval_cases n <;> assumption

theorem StepsSpec_ite (p : Platform) (c : Prop) [Decidable c] (a b : Except St St)
    (ha : c → StepsSpec p a) (hb : ¬c → StepsSpec p b) : StepsSpec p (if c then a else b) := by
  split
  · exact ha (by assumption)
  · exact hb (by assumption)

theorem StepsSpec_error (p : Platform) (s : St) (line : Nat) (v : Int) (e : Event) (pre : Log)
    (ho : ¬ExpectedReplies p)
    (hr : s.result = false) (hl : s.log = test_printf (Msg.failed line v) (e :: pre))
    (hv : v = e.failArg) (he : e.expected = false) (hpre : AllExpected pre)
    (hpfx : e.asExpected :: pre =
        (happyLog (p.envGetMainThreadHandle 0) (p.clock_gettime 0) (p.clock_gettime 1)).drop
          ((happyLog (p.envGetMainThreadHandle 0) (p.clock_gettime 0) (p.clock_gettime 1)).length -
            (pre.length + 1))) :
    StepsSpec p (Except.error s) := by
  subst hv
  exact ⟨ho, hr, line, e, pre, hl, he, hpre, hpfx⟩

theorem StepsSpec_ok (p : Platform) (s : St) (ho : ExpectedReplies p) (hr : s.result = true)
    (hexp : AllExpected s.log)
    (hlog : s.log =
      happyLog (p.envGetMainThreadHandle 0) (p.clock_gettime 0) (p.clock_gettime 1)) :
    StepsSpec p (Except.ok s) := ⟨ho, hr, hexp, hlog⟩

set_option maxHeartbeats 4000000 in
set_option maxRecDepth 100000 in
/-- The test steps satisfy `StepsSpec` on every platform. -/
theorem steps_spec (p : Platform) : StepsSpec p (threadSuspendTest_steps p St.init) := by
  simp only [threadSuspendTest_steps, St.clock_gettime, St.printf, St.envGetMainThreadHandle,
    St.svcSetThreadActivity, St.threadCreate, St.threadStart, St.threadWaitForExit, St.threadClose,
    St.threadPause, St.threadResume, St.svcSleepThread, St.assign, St.setRc, St.setStart,
    St.setStop, St.setMainThreadHandle, St.setArgs, St.semaphoreInit, St.semaphoreSignal,
    createLoop, pauseLoop, resumeLoop, joinLoop, signalLoop, initArgs, forIndices_all,
    forIndices_third, List.foldlM_cons, List.foldlM_nil, List.foldl_cons, List.foldl_nil, St.init,
    ↓assertZero_bind, ↓assertTrue_bind, bind_assoc, pure_bind, assertZero_eq, ↓ite_bind_except,
    bind_pure, ↓ok_bind, replicate_threads, replicate_args, List.set_cons_zero,
    List.set_cons_succ, List.getD_cons_zero, List.getD_cons_succ, Nat.zero_add, Nat.reduceAdd,
    decide_eq_true_eq, ne_eq, mulU64_sleepNsec, sleepNsec, threadSem, Nat.reduceMul,
    Nat.reduceEqDiff, decide_False, decide_True, Int.ofNat_eq_coe, Nat.cast_ofNat, Int.reduceAdd,
    Nat.cast_zero, Nat.cast_one, zero_add]
  repeat' (apply StepsSpec_ite <;> intro _)
  all_goals first
    | exact StepsSpec_error p _ _ _ _ _
        (by simp only [ExpectedReplies, forall_lt_five, forall_lt_two, ne_eq, *, eq_self,
              not_true_eq_false, not_false_eq_true, and_self, and_true, true_and, and_false,
              false_and])
        rfl rfl (by first | rfl | simp only [if_neg, *]; rfl)
        (by simp only [Event.expected, decide_eq_false_iff_not, ne_eq, not_not]
            first | assumption | omega)
        (by simp only [allExpected_cons, allExpected_printf, allExpected_nil, Event.expected,
              decide_eq_true_eq, ne_eq, not_false_eq_true, and_self, decide_True, *])
        (by simp only [*, ↓happyLog_length, List.length_cons, length_printf, List.length_nil, Nat.reduceAdd,
              Nat.reduceSub, happyLog, drop_printf, List.drop_succ_cons, List.drop_zero,
              Event.asExpected])
    | exact StepsSpec_ok p _
        (by simp only [ExpectedReplies, forall_lt_five, forall_lt_two, ne_eq, *, eq_self,
              not_true_eq_false, not_false_eq_true, and_self, and_true, true_and])
        rfl
        (by simp only [allExpected_cons, allExpected_printf, allExpected_nil, Event.expected,
              decide_eq_true_eq, ne_eq, not_false_eq_true, and_self, decide_True, *])
        (by simp only [*]; rfl)

theorem allExpected_reverse (l : Log) : AllExpected l.reverse ↔ AllExpected l := by
  simp [AllExpected]

/-- The test steps reach line 142 exactly when every check passes. -/
theorem checksPass_iff_ok (p : Platform) :
    ChecksPass p ↔ ∃ s, threadSuspendTest_steps p St.init = Except.ok s := by
  have hspec := steps_spec p
  unfold ChecksPass stepsTrace
  cases hr : threadSuspendTest_steps p St.init with
  | ok s =>
    rw [hr] at hspec
    simp only [allExpected_reverse]
    exact ⟨fun _ => ⟨s, rfl⟩, fun _ => hspec.2.2.1⟩
  | error s =>
    rw [hr] at hspec
    obtain ⟨_, _, line, e, pre, hl, he, _, _⟩ := hspec
    simp only [allExpected_reverse, hl, allExpected_printf, allExpected_cons, he]
    simp

/-- A run in which every check passes: the result and the log. -/
theorem run_of_checksPass (p : Platform) (h : ChecksPass p) :
    ∃ s, threadSuspendTest p = (true, s) ∧
      s.log = happyLog (p.envGetMainThreadHandle 0) (p.clock_gettime 0) (p.clock_gettime 1) := by
  obtain ⟨s, hs⟩ := (checksPass_iff_ok p).1 h
  have hspec := steps_spec p
  rw [hs] at hspec
  refine ⟨s, ?_, hspec.2.2.2⟩
  unfold threadSuspendTest
  rw [hs]
  simp only [hspec.2.1]

/-- The trace of a run in which every check passes. -/
theorem trace_of_checksPass (p : Platform) (h : ChecksPass p) :
    trace p =
      (happyLog (p.envGetMainThreadHandle 0) (p.clock_gettime 0) (p.clock_gettime 1)).reverse := by
  obtain ⟨s, hs, hl⟩ := run_of_checksPass p h
  unfold trace
  rw [hs, hl]

theorem getD_set_ne (l : List Nat) (i j a d : Nat) (h : i ≠ j) :
    (l.set i a).getD j d = l.getD j d := by
  simp [List.getElem?_set_ne h]

/-- One pass of the `cleanup:` loop. -/
theorem cleanupBody_spec (p : Platform) (s : St) (i : Nat) :
    ∃ cl, (cleanupBody p s i).log = cl ++ s.log ∧
      cl.reverse.map Event.threadOp =
        (if s.threads.getD i 0 ≠ 0 then [some (Op.waitForExit, i), some (Op.close, i)] else []) ∧
      (cleanupBody p s i).result = s.result ∧
      ∀ j, i ≠ j → (cleanupBody p s i).threads.getD j 0 = s.threads.getD j 0 := by
  unfold cleanupBody
  by_cases h : s.threads.getD i 0 ≠ 0
  · refine ⟨[Event.threadClose i (p.threadClose s.nClose).rc,
      Event.threadWaitForExit i (p.threadWaitForExit s.nWait).rc], ?_⟩
    rw [if_pos h, if_pos h]
    refine ⟨rfl, rfl, rfl, ?_⟩
    intro j hj
    show ((s.threads.set i _).set i _).getD j 0 = s.threads.getD j 0
    rw [getD_set_ne _ _ _ _ _ hj, getD_set_ne _ _ _ _ _ hj]
  · rw [if_neg h, if_neg h]
    exact ⟨[], rfl, rfl, rfl, fun _ _ => rfl⟩

/-- The `cleanup:` loop over any list of distinct indices. -/
theorem cleanup_fold (p : Platform) (is : List Nat) (hnd : is.Nodup) (s : St) :
    ∃ cl, (is.foldl (cleanupBody p) s).log = cl ++ s.log ∧
      cl.reverse.map Event.threadOp =
        ((is.filter (fun i => s.threads.getD i 0 ≠ 0)).flatMap
          (fun i => [(Op.waitForExit, i), (Op.close, i)])).map some ∧
      (is.foldl (cleanupBody p) s).result = s.result := by
  induction is generalizing s with
  | nil => exact ⟨[], by simp⟩
  | cons i is ih =>
    obtain ⟨hi, hnd'⟩ := List.nodup_cons.1 hnd
    obtain ⟨cl₁, hl₁, hm₁, hr₁, ht₁⟩ := cleanupBody_spec p s i
    obtain ⟨cl₂, hl₂, hm₂, hr₂⟩ := ih hnd' (cleanupBody p s i)
    have hfilter : is.filter (fun j => (cleanupBody p s i).threads.getD j 0 ≠ 0) =
        is.filter (fun j => s.threads.getD j 0 ≠ 0) := by
      apply List.filter_congr
      intro j hj
      have hij : i ≠ j := fun h => hi (h ▸ hj)
      rw [ht₁ j hij]
    refine ⟨cl₂ ++ cl₁, ?_, ?_, ?_⟩
    · rw [List.foldl_cons, hl₂, hl₁, List.append_assoc]
    · rw [List.reverse_append, List.map_append, hm₁, hm₂, hfilter]
      by_cases h : s.threads.getD i 0 ≠ 0
      · rw [if_pos h, List.filter_cons_of_pos (by simpa using h)]
        rfl
      · rw [if_neg h, List.filter_cons_of_neg (by simpa using h)]
        rfl
    · rw [List.foldl_cons, hr₂, hr₁]

/-- The `cleanup:` loop from any state: it only appends calls to the log, and
the calls are `cleanupCalls` of the `handle` fields on entry. -/
theorem cleanup_spec (p : Platform) (s : St) :
    ∃ cl, (threadSuspendTest_cleanup p s).log = cl ++ s.log ∧
      cl.reverse.map Event.threadOp = (cleanupCalls s.threads).map some ∧
      (threadSuspendTest_cleanup p s).result = s.result := by
  unfold threadSuspendTest_cleanup cleanupCalls
  exact cleanup_fold p _ (by rw [forIndices_all]; decide) s

/-! ## The claims -/

/-- Claim C1: in every run in which every checked call returns its expected
value, exactly five threads are created, the first running
`threadFuncSuspend` and then four running `threadFuncLoop` with numbers 1 to
4, and each of the five is created, started, waited for and closed exactly
once, in that order. -/
theorem C1_five_threads_lifecycle (p : Platform) (h : ChecksPass p) :
    (trace p).filterMap Event.created =
      [(0, Entry.threadFuncSuspend, Arg.mainThreadHandle (p.envGetMainThreadHandle 0)),
       (0, Entry.threadFuncLoop, Arg.args { num := 1, sem := threadSem, wait := false }),
       (1, Entry.threadFuncLoop, Arg.args { num := 2, sem := threadSem, wait := false }),
       (2, Entry.threadFuncLoop, Arg.args { num := 3, sem := threadSem, wait := false }),
       (3, Entry.threadFuncLoop, Arg.args { num := 4, sem := threadSem, wait := true })] ∧
    (trace p).filterMap Event.lifecycle =
      [(Op.create, 0), (Op.start, 0), (Op.waitForExit, 0), (Op.close, 0),
       (Op.create, 0), (Op.start, 0), (Op.create, 1), (Op.start, 1),
       (Op.create, 2), (Op.start, 2), (Op.create, 3), (Op.start, 3),
       (Op.waitForExit, 0), (Op.close, 0), (Op.waitForExit, 1), (Op.close, 1),
       (Op.waitForExit, 2), (Op.close, 2), (Op.waitForExit, 3), (Op.close, 3)] ∧
    histories ((trace p).filterMap Event.lifecycle) =
      [(0, [Op.create, Op.start, Op.waitForExit, Op.close]),
       (0, [Op.create, Op.start, Op.waitForExit, Op.close]),
       (1, [Op.create, Op.start, Op.waitForExit, Op.close]),
       (2, [Op.create, Op.start, Op.waitForExit, Op.close]),
       (3, [Op.create, Op.start, Op.waitForExit, Op.close])] := by
  rw [trace_of_checksPass p h]
  refine ⟨rfl, rfl, rfl⟩

theorem goodPlatform_checksPass : ChecksPass goodPlatform :=
  (checksPass_iff_ok goodPlatform).2 ⟨_, rfl⟩

/-- Witness for C1: the all-success platform creates five threads. -/
theorem C1_five_threads_lifecycle_witness :
    ChecksPass goodPlatform ∧ ((trace goodPlatform).filterMap Event.created).length = 5 :=
  ⟨goodPlatform_checksPass, by
    rw [(C1_five_threads_lifecycle goodPlatform goodPlatform_checksPass).1]; rfl⟩

/-- Claim C2: in every run in which every checked call returns its expected
value, the `threadPause` calls are on array slots 0 and 3 (workers 1 and 4), the
`threadResume` calls are on the same slots, every pause precedes every resume,
slots 1 and 2 are never paused or resumed, and the one worker created with
`wait = true` is worker 4 in slot 3, which is paused and which calls
`semaphoreWait`. -/
theorem C2_pause_resume (p : Platform) (h : ChecksPass p) :
    (trace p).filterMap Event.paused = [0, 3] ∧
    (trace p).filterMap Event.resumed = [0, 3] ∧
    (trace p).filterMap Event.pauseResume =
      [(Op.pause, 0), (Op.pause, 3), (Op.resume, 0), (Op.resume, 3)] ∧
    ((trace p).filterMap Event.created).filterMap waitingWorker = [(3, 4)] ∧
    3 ∈ (trace p).filterMap Event.paused ∧
    (∀ (o : LoopOracle) (a : ThreadArgs) (fuel : Nat), a.wait = true →
      threadFuncLoop o a fuel =
        some (test_printf (Msg.threadExiting a.num) [Event.semaphoreWait a.sem])) := by
  rw [trace_of_checksPass p h]
  refine ⟨rfl, rfl, rfl, rfl, ?_, ?_⟩
  · show (3 : Nat) ∈ [0, 3]
    decide
  intro o a fuel ha
  simp [threadFuncLoop, ha]

/-- Witness for C2: on the all-success platform slot 3 is paused. -/
theorem C2_pause_resume_witness :
    ChecksPass goodPlatform ∧ (trace goodPlatform).filterMap Event.paused = [0, 3] :=
  ⟨goodPlatform_checksPass, (C2_pause_resume goodPlatform goodPlatform_checksPass).1⟩

/-- Claim C5: in every run in which every checked call returns its expected
value, the main thread sleeps four times, for 1 s, 1 s, 3 s and 3 s, 8 s in
all: after the suspender thread is closed, after the four workers are started
and before the first pause, between the last pause and the first resume, and
between the last resume and the first semaphore signal; and `sleepNsec * 3`
is 3,000,000,000 without wrap-around in 64 bits. -/
theorem C5_sleeps (p : Platform) (h : ChecksPass p) :
    (trace p).filterMap Event.slept = [1000000000, 1000000000, 3000000000, 3000000000] ∧
    ((trace p).filterMap Event.slept).sum = 8000000000 ∧
    (trace p).filterMap Event.mark =
      [Mark.op Op.create 0, Mark.op Op.start 0, Mark.op Op.waitForExit 0, Mark.op Op.close 0,
       Mark.sleep 1000000000,
       Mark.op Op.create 0, Mark.op Op.start 0, Mark.op Op.create 1, Mark.op Op.start 1,
       Mark.op Op.create 2, Mark.op Op.start 2, Mark.op Op.create 3, Mark.op Op.start 3,
       Mark.sleep 1000000000,
       Mark.op Op.pause 0, Mark.op Op.pause 3,
       Mark.sleep 3000000000,
       Mark.op Op.resume 0, Mark.op Op.resume 3,
       Mark.sleep 3000000000,
       Mark.signal, Mark.signal, Mark.signal, Mark.signal,
       Mark.op Op.waitForExit 0, Mark.op Op.close 0, Mark.op Op.waitForExit 1, Mark.op Op.close 1,
       Mark.op Op.waitForExit 2, Mark.op Op.close 2, Mark.op Op.waitForExit 3,
       Mark.op Op.close 3] ∧
    mulU64 sleepNsec 3 = 3000000000 ∧ sleepNsec * 3 < 2 ^ 64 := by
  rw [trace_of_checksPass p h]
  refine ⟨rfl, ?_, rfl, ?_, ?_⟩
  · show ([1000000000, 1000000000, 3000000000, 3000000000] : List Nat).sum = 8000000000
    simp
  · simp [mulU64, sleepNsec]
  · norm_num [sleepNsec]

/-- Witness for C5: on the all-success platform the sleeps add up to 8 s. -/
theorem C5_sleeps_witness :
    ChecksPass goodPlatform ∧ ((trace goodPlatform).filterMap Event.slept).sum = 8000000000 :=
  ⟨goodPlatform_checksPass, (C5_sleeps goodPlatform goodPlatform_checksPass).2.1⟩

/-- The `while (!result)` loop makes exactly `m` passes when the next `m`
results of `semaphoreTryWait` are failures and the one after is a success. -/
theorem threadFuncLoop_while_eq (o : LoopOracle) (args : ThreadArgs) (m : Nat) :
    ∀ (n fuel : Nat) (log : Log), (∀ i < m, o.semaphoreTryWait (n + i) = false) →
      o.semaphoreTryWait (n + m) = true → m < fuel →
      threadFuncLoop_while o args fuel n (o.semaphoreTryWait n) log =
        some (((List.range m).flatMap (fun i => loopPass o args (n + i))).reverse ++ log) := by
  induction m with
  | zero =>
    intro n fuel log _ ht hf
    obtain ⟨f, rfl⟩ : ∃ f, fuel = f + 1 := ⟨fuel - 1, by omega⟩
    simp only [Nat.add_zero] at ht
    simp [threadFuncLoop_while, ht]
  | succ m ih =>
    intro n fuel log hfalse ht hf
    obtain ⟨f, rfl⟩ : ∃ f, fuel = f + 1 := ⟨fuel - 1, by omega⟩
    have h0 : o.semaphoreTryWait n = false := by simpa using hfalse 0 (Nat.succ_pos m)
    have hstep := ih (n + 1) f
      (Event.semaphoreTryWait args.sem (o.semaphoreTryWait (n + 1)) ::
        Event.svcSleepThread sleepNsec ::
        test_printf (Msg.threadAt args.num (asULong (o.clock_gettime n).tv_sec))
          (Event.clock_gettime (o.clock_gettime n) :: log))
      (fun i hi => by
        have := hfalse (i + 1) (by omega)
        rwa [show n + (i + 1) = n + 1 + i by omega] at this)
      (by rwa [show n + (m + 1) = n + 1 + m by omega] at ht)
      (by omega)
    rw [threadFuncLoop_while, h0]
    simp only [Bool.not_false, if_true]
    rw [hstep]
    congr 1
    rw [List.range_succ_eq_map, List.flatMap_cons, List.flatMap_map, List.reverse_append,
      List.append_assoc]
    congr 1
    · congr 1
      apply List.flatMap_congr
      intro i _
      show loopPass o args (n + 1 + i) = loopPass o args (n + (i + 1))
      rw [show n + 1 + i = n + (i + 1) by omega]

theorem map_range_const (f : Nat → Bool) (b : Bool) (k : Nat) (h : ∀ i < k, f i = b) :
    (List.range k).map f = List.replicate k b := by
  rw [List.eq_replicate_iff]
  refine ⟨by simp, ?_⟩
  intro x hx
  obtain ⟨i, hi, rfl⟩ := List.mem_map.1 hx
  exact h i (List.mem_range.1 hi)

theorem countP_acquired (l : List Event) :
    l.countP Event.acquired =
      (l.filterMap Event.tryWaited).count true + l.countP Event.isSemaphoreWait := by
  induction l with
  | nil => rfl
  | cons e l ih =>
    cases e <;>
      simp [List.countP_cons, List.filterMap_cons, Event.acquired, Event.tryWaited,
        Event.isSemaphoreWait, ih, List.count_cons] <;> omega

/-- Claim C6: `threadFuncLoop`.  With `wait` false and `k` failed
`semaphoreTryWait` results followed by a success it prints exactly the `k`
progress lines, sleeps exactly `k` times for 1 s, calls `semaphoreTryWait`
exactly `k + 1` times and then prints the exiting line, once and last; with
`wait` true it calls `semaphoreWait` once and prints the exiting line with no
progress line.  Either way exactly one unit is taken from the semaphore
before the exiting line. -/
theorem C6_threadFuncLoop (o : LoopOracle) (args : ThreadArgs) :
    (args.wait = false → ∀ k fuel : Nat, (∀ i < k, o.semaphoreTryWait i = false) →
      o.semaphoreTryWait k = true → k < fuel →
      ∃ body : Log,
        threadFuncLoop o args fuel = some (test_printf (Msg.threadExiting args.num) body) ∧
        body.reverse.filterMap Event.printed =
          (List.range k).map
            (fun i => Msg.threadAt args.num (asULong (o.clock_gettime i).tv_sec)) ∧
        body.reverse.filterMap Event.slept = List.replicate k 1000000000 ∧
        body.reverse.filterMap Event.tryWaited = List.replicate k false ++ [true] ∧
        body.countP Event.isSemaphoreWait = 0 ∧
        body.countP Event.acquired = 1) ∧
    (args.wait = true → ∀ fuel : Nat,
      threadFuncLoop o args fuel =
        some (test_printf (Msg.threadExiting args.num) [Event.semaphoreWait args.sem]) ∧
      List.countP Event.acquired [Event.semaphoreWait args.sem] = 1) := by
  constructor
  · intro hw k fuel hfalse htrue hf
    have hloop := threadFuncLoop_while_eq o args k 0 fuel
      [Event.semaphoreTryWait args.sem (o.semaphoreTryWait 0)]
      (by simpa using hfalse) (by simpa using htrue) hf
    have hprinted : ∀ i, (loopPass o args i).filterMap Event.printed =
        [Msg.threadAt args.num (asULong (o.clock_gettime i).tv_sec)] := fun _ => rfl
    have hslept : ∀ i, (loopPass o args i).filterMap Event.slept = [1000000000] :=
      fun _ => rfl
    have htry : ∀ i, (loopPass o args i).filterMap Event.tryWaited =
        [o.semaphoreTryWait (i + 1)] := fun _ => rfl
    have hwait : ∀ i, ∀ x ∈ loopPass o args i, Event.isSemaphoreWait x = false := by
      intro i x hx
      simp only [loopPass, List.mem_cons, List.mem_singleton, List.not_mem_nil, or_false] at hx
      rcases hx with rfl | rfl | rfl | rfl | rfl | rfl | rfl <;> rfl
    have htries : (Event.semaphoreTryWait args.sem (o.semaphoreTryWait 0) ::
        (List.range k).flatMap (fun i => loopPass o args (0 + i))).filterMap Event.tryWaited =
        List.replicate k false ++ [true] := by
      rw [List.filterMap_cons]
      simp only [Event.tryWaited, List.filterMap_flatMap, htry, ← List.map_eq_flatMap]
      have h1 : o.semaphoreTryWait 0 ::
          List.map (fun i => o.semaphoreTryWait (0 + i + 1)) (List.range k) =
          List.map o.semaphoreTryWait (List.range (k + 1)) := by
        rw [List.range_succ_eq_map, List.map_cons, List.map_map]
        congr 1
        apply List.map_congr_left
        intro i _
        simp
      rw [h1, List.range_succ, List.map_append, map_range_const _ false k hfalse]
      simp [htrue]
    have hnowait : List.countP Event.isSemaphoreWait
        (((List.range k).flatMap (fun i => loopPass o args (0 + i))).reverse ++
          [Event.semaphoreTryWait args.sem (o.semaphoreTryWait 0)]) = 0 := by
      rw [List.countP_eq_zero]
      intro x hx
      rcases List.mem_append.1 hx with hx | hx
      · obtain ⟨i, _, hi⟩ := List.mem_flatMap.1 (List.mem_reverse.1 hx)
        simp [hwait _ x hi]
      · rw [List.mem_singleton.1 hx]
        simp [Event.isSemaphoreWait]
    refine ⟨((List.range k).flatMap (fun i => loopPass o args (0 + i))).reverse ++
      [Event.semaphoreTryWait args.sem (o.semaphoreTryWait 0)], ?_, ?_, ?_, ?_, hnowait, ?_⟩
    · unfold threadFuncLoop
      simp only [hw, Bool.false_eq_true, if_false, hloop, Option.map_some']
    · rw [List.reverse_append, List.reverse_reverse]
      simp only [List.reverse_cons, List.reverse_nil, List.nil_append, List.singleton_append,
        List.filterMap_cons, Event.printed, List.filterMap_flatMap, hprinted,
        ← List.map_eq_flatMap, Nat.zero_add]
    · rw [List.reverse_append, List.reverse_reverse]
      simp only [List.reverse_cons, List.reverse_nil, List.nil_append, List.singleton_append,
        List.filterMap_cons, Event.slept, List.filterMap_flatMap, hslept,
        ← List.map_eq_flatMap, List.map_const', List.length_range]
    · rw [List.reverse_append, List.reverse_reverse]
      exact htries
    · rw [countP_acquired, hnowait, ← List.count_reverse, ← List.filterMap_reverse,
        List.reverse_append, List.reverse_reverse]
      rw [show [Event.semaphoreTryWait args.sem (o.semaphoreTryWait 0)].reverse ++
          (List.range k).flatMap (fun i => loopPass o args (0 + i)) =
          Event.semaphoreTryWait args.sem (o.semaphoreTryWait 0) ::
          (List.range k).flatMap (fun i => loopPass o args (0 + i)) from rfl, htries]
      simp [List.count_append, List.count_replicate]
  · intro hw fuel
    refine ⟨?_, rfl⟩
    unfold threadFuncLoop
    simp only [hw, if_true, Option.map_some']

/-- Witness for C6: a worker that is not told to wait and whose third
`semaphoreTryWait` succeeds makes two passes. -/
theorem C6_threadFuncLoop_witness :
    ∃ body : Log,
      threadFuncLoop ⟨fun n => decide (n = 2), fun n => ⟨Int.ofNat n, 0⟩⟩ ⟨2, 0, false⟩ 3 =
        some (test_printf (Msg.threadExiting 2) body) ∧
      body.reverse.filterMap Event.slept = [1000000000, 1000000000] := by
  obtain ⟨body, h1, _, h3, _⟩ :=
    (C6_threadFuncLoop ⟨fun n => decide (n = 2), fun n => ⟨Int.ofNat n, 0⟩⟩ ⟨2, 0, false⟩).1 rfl
      2 3 (by decide) (by decide) (by decide)
  exact ⟨body, h1, h3⟩

/-! ### The suspender thread -/

theorem suspendsHandle_asExpected (h : Nat) (e : Event) :
    e.asExpected.suspendsHandle h = e.suspendsHandle h := by
  cases e with
  | threadCreate i en a st pr c rc => cases en <;> rfl
  | _ => rfl

theorem suspendsHandle_happyLog (h : Nat) (t0 t1 : Timespec) :
    ∀ x ∈ happyLog h t0 t1, x.suspendsHandle h = true := by
  intro x hx
  simp only [happyLog, test_printf, List.mem_cons, List.mem_singleton, List.not_mem_nil,
    or_false] at hx
  rcases hx with rfl | rfl | rfl | rfl | rfl | rfl | rfl | rfl | rfl | rfl | rfl | rfl | rfl |
    rfl | rfl | rfl | rfl | rfl | rfl | rfl | rfl | rfl | rfl | rfl | rfl | rfl | rfl | rfl |
    rfl | rfl | rfl | rfl | rfl | rfl | rfl | rfl | rfl | rfl | rfl | rfl | rfl | rfl | rfl |
    rfl | rfl | rfl | rfl | rfl | rfl | rfl | rfl | rfl | rfl | rfl | rfl | rfl | rfl | rfl |
    rfl | rfl | rfl | rfl | rfl | rfl | rfl | rfl | rfl | rfl | rfl <;>
    simp [Event.suspendsHandle]

/-- In every run, whichever way it ends, a thread running `threadFuncSuspend`
is only ever created on the handle the first `envGetMainThreadHandle` call
returned. -/
theorem suspendsHandle_trace (p : Platform) :
    ∀ x ∈ trace p, x.suspendsHandle (p.envGetMainThreadHandle 0) = true := by
  have hspec := steps_spec p
  intro x hx
  unfold trace threadSuspendTest at hx
  cases hr : threadSuspendTest_steps p St.init with
  | ok s =>
    rw [hr] at hspec hx
    simp only [List.mem_reverse, hspec.2.2.2] at hx
    exact suspendsHandle_happyLog _ _ _ x hx
  | error s =>
    rw [hr] at hspec hx
    obtain ⟨_, _, line, e, pre, hl, _, _, hpfx⟩ := hspec
    obtain ⟨cl, hcl, hops, _⟩ := cleanup_spec p s
    simp only [List.mem_reverse, hcl, List.mem_append] at hx
    have hmem : ∀ y ∈ e.asExpected :: pre,
        y.suspendsHandle (p.envGetMainThreadHandle 0) = true := by
      intro y hy
      rw [hpfx] at hy
      exact suspendsHandle_happyLog _ _ _ y (List.mem_of_mem_drop hy)
    rcases hx with hx | hx
    · have hsome : (Event.threadOp x).isSome ∧
          ∀ i, Event.threadOp x ≠ some (Op.create, i) := by
        have hx' : Event.threadOp x ∈ cl.reverse.map Event.threadOp :=
          List.mem_map_of_mem _ (List.mem_reverse.2 hx)
        rw [hops] at hx'
        obtain ⟨c, hc, hcx⟩ := List.mem_map.1 hx'
        obtain ⟨i, _, hi⟩ := List.mem_flatMap.1 hc
        simp only [List.mem_cons, List.mem_singleton, List.not_mem_nil, or_false] at hi
        rcases hi with rfl | rfl <;> simp [← hcx]
      cases x <;> simp_all [Event.threadOp, Event.suspendsHandle]
    · rw [hl] at hx
      simp only [test_printf, List.mem_cons] at hx
      rcases hx with rfl | rfl | rfl | rfl | rfl | hx
      · rfl
      · rfl
      · rfl
      · rfl
      · rw [← suspendsHandle_asExpected]
        exact hmem _ (List.mem_cons_self _ _)
      · exact hmem _ (List.mem_cons_of_mem _ hx)

/-- Claim C7: `threadFuncSuspend`, whatever the two `svcSetThreadActivity`
calls return, makes exactly two activity calls, both on the handle it was
given: pause first, then after one sleep of 1 s resume, so the last activity
requested is resume; and in `threadSuspendTest` the handle it is given is the
one `envGetMainThreadHandle` returned. -/
theorem C7_threadFuncSuspend (activity : Nat → Nat) (handle : Nat) (p : Platform) :
    (threadFuncSuspend activity handle).reverse.filterMap Event.activity =
      [(handle, true), (handle, false)] ∧
    (threadFuncSuspend activity handle).reverse.filter Event.isActivityOrSleep =
      [Event.svcSetThreadActivity handle true (activity 0), Event.svcSleepThread 1000000000,
       Event.svcSetThreadActivity handle false (activity 1)] ∧
    ((threadFuncSuspend activity handle).reverse.filterMap Event.activity).getLast? =
      some (handle, false) ∧
    (∀ x ∈ trace p, ∀ (i : Nat) (a : Arg) (st pr : Nat) (c : Int) (rc : Nat),
      x = Event.threadCreate i Entry.threadFuncSuspend a st pr c rc →
        a = Arg.mainThreadHandle (p.envGetMainThreadHandle 0)) := by
  refine ⟨rfl, rfl, rfl, ?_⟩
  intro x hx i a st pr c rc hxe
  have := suspendsHandle_trace p x hx
  rw [hxe] at this
  simpa [Event.suspendsHandle] using this

/-- Witness for C7: on the all-success platform the suspender thread is
created on the main thread handle `0xD001`. -/
theorem C7_threadFuncSuspend_witness :
    Event.threadCreate 0 Entry.threadFuncSuspend (Arg.mainThreadHandle 0xD001) 131072 59 (-2) 0
        ∈ trace goodPlatform ∧
      Arg.mainThreadHandle 0xD001 =
        Arg.mainThreadHandle (goodPlatform.envGetMainThreadHandle 0) := by
  have hmem : Event.threadCreate 0 Entry.threadFuncSuspend (Arg.mainThreadHandle 0xD001)
      131072 59 (-2) 0 ∈ trace goodPlatform := by decide
  exact ⟨hmem, (C7_threadFuncSuspend (fun _ => 0) 0xD001 goodPlatform).2.2.2 _ hmem
    0 _ 131072 59 (-2) 0 rfl⟩

/-! ### The input loop of `main` -/

/-- Masking with a one-bit constant is non-zero exactly when that bit is set. -/
theorem and_two_pow_ne_zero (k b : Nat) : k &&& 2 ^ b ≠ 0 ↔ k.testBit b = true := by
  constructor
  · intro h
    obtain ⟨i, hi⟩ := Nat.ne_zero_implies_bit_true h
    rw [Nat.testBit_and, Nat.testBit_two_pow] at hi
    simp only [Bool.and_eq_true, decide_eq_true_eq] at hi
    rw [hi.2]
    exact hi.1
  · intro h hz
    have : (k &&& 2 ^ b).testBit b = true := by
      rw [Nat.testBit_and, Nat.testBit_two_pow_self, h]
      rfl
    rw [hz] at this
    simp at this

/-- The input loop is left in pass `n + d` when the `d` passes from `n` on all
go on and pass `n + d` ends the loop. -/
theorem main_while_eq (b : Nat) (inp : Input) (d : Nat) :
    ∀ (n fuel : Nat) (log : Log),
      (∀ i < d, inp.appletMainLoop (n + i) = true ∧
        (inp.hidKeysDown (n + i)).testBit b = false) →
      (inp.appletMainLoop (n + d) = false ∨ (inp.hidKeysDown (n + d)).testBit b = true) →
      d < fuel →
      main_while (2 ^ b) inp fuel n log =
        some (((List.range d).flatMap (fun i => inputPass inp (n + i)) ++
          (if inp.appletMainLoop (n + d) then inputPass inp (n + d)
            else [Event.appletMainLoop false])).reverse ++ log) := by
  induction d with
  | zero =>
    intro n fuel log _ hexit hf
    obtain ⟨f, rfl⟩ : ∃ f, fuel = f + 1 := ⟨fuel - 1, by omega⟩
    simp only [Nat.add_zero] at hexit
    rw [main_while]
    cases hb : inp.appletMainLoop n with
    | false => simp [hb]
    | true =>
      have hbit : (inp.hidKeysDown n).testBit b = true := by
        rcases hexit with h | h
        · rw [hb] at h
          exact absurd h (by decide)
        · exact h
      have hne := (and_two_pow_ne_zero (inp.hidKeysDown n) b).2 hbit
      simp [hne, hb, inputPass]
  | succ d ih =>
    intro n fuel log hcont hexit hf
    obtain ⟨f, rfl⟩ : ∃ f, fuel = f + 1 := ⟨fuel - 1, by omega⟩
    obtain ⟨hb, hbit⟩ := hcont 0 (Nat.succ_pos d)
    simp only [Nat.add_zero] at hb hbit
    have hz : inp.hidKeysDown n &&& 2 ^ b = 0 := by
      by_contra hne
      have := (and_two_pow_ne_zero (inp.hidKeysDown n) b).1 hne
      rw [hbit] at this
      exact absurd this (by decide)
    have hstep := ih (n + 1) f
      (Event.hidKeysDown (inp.hidKeysDown n) :: Event.hidScanInput ::
        Event.appletMainLoop true :: log)
      (fun i hi => by
        have := hcont (i + 1) (by omega)
        rwa [show n + (i + 1) = n + 1 + i by omega] at this)
      (by rwa [show n + (d + 1) = n + 1 + d by omega] at hexit)
      (by omega)
    rw [main_while]
    simp only [hb, if_true, hz, ne_eq, not_true_eq_false, if_false]
    rw [hstep, List.range_succ_eq_map, List.flatMap_cons, List.flatMap_map]
    have hshift : (List.range d).flatMap (fun i => inputPass inp (n + 1 + i)) =
        (List.range d).flatMap ((fun i => inputPass inp (n + i)) ∘ Nat.succ) := by
      apply List.flatMap_congr
      intro i _
      show inputPass inp (n + 1 + i) = inputPass inp (n + (i + 1))
      rw [show n + 1 + i = n + (i + 1) by omega]
    rw [hshift, show n + 1 + d = n + (d + 1) by omega]
    simp only [Nat.add_zero, List.reverse_append, List.append_assoc]
    rfl

/-- The input loop does not end while every pass gets past `appletMainLoop`
with a mask that lacks bit `b`. -/
theorem main_while_none (b : Nat) (inp : Input) (fuel : Nat) :
    ∀ (n : Nat) (log : Log),
      (∀ i < fuel, inp.appletMainLoop (n + i) = true ∧
        (inp.hidKeysDown (n + i)).testBit b = false) →
      main_while (2 ^ b) inp fuel n log = none := by
  induction fuel with
  | zero =>
    intro n log _
    rfl
  | succ f ih =>
    intro n log hcont
    obtain ⟨hb, hbit⟩ := hcont 0 (Nat.succ_pos f)
    simp only [Nat.add_zero] at hb hbit
    have hz : inp.hidKeysDown n &&& 2 ^ b = 0 := by
      by_contra hne
      have := (and_two_pow_ne_zero (inp.hidKeysDown n) b).1 hne
      rw [hbit] at this
      exact absurd this (by decide)
    rw [main_while]
    simp only [hb, if_true, hz, ne_eq, not_true_eq_false, if_false]
    apply ih
    intro i hi
    have := hcont (i + 1) (by omega)
    rwa [show n + (i + 1) = n + 1 + i by omega] at this

/-- Claim C4: for every sequence of `appletMainLoop` results and key masks,
`main` leaves its input loop in the first pass in which `appletMainLoop`
returns false or the mask has the `KEY_PLUS` bit set, whatever its other bits,
and in no earlier pass; then it calls `consoleExit` and returns 0.  While every
pass gets past `appletMainLoop` with a mask that lacks the bit, the loop goes
on. -/
theorem C4_main_exits_on_plus (b : Nat) (p : Platform) (inp : Input) :
    (∀ n fuel : Nat,
      (∀ i < n, inp.appletMainLoop i = true ∧ (inp.hidKeysDown i).testBit b = false) →
      (inp.appletMainLoop n = false ∨ (inp.hidKeysDown n).testBit b = true) →
      n < fuel →
      ∃ log : Log, main (2 ^ b) p inp fuel = some (0, log) ∧
        log.reverse =
          Event.consoleInit :: trace p ++ inputLoopTrace inp n ++ [Event.consoleExit] ∧
        (inputLoopTrace inp n).filterMap Event.mainLoopResult =
          List.replicate n true ++ [inp.appletMainLoop n]) ∧
    (∀ fuel : Nat,
      (∀ i < fuel, inp.appletMainLoop i = true ∧ (inp.hidKeysDown i).testBit b = false) →
      main (2 ^ b) p inp fuel = none) := by
  constructor
  · intro n fuel hcont hexit hfuel
    have hloop := main_while_eq b inp n 0 fuel
      ((threadSuspendTest p).2.log ++ [Event.consoleInit])
      (by simpa using hcont) (by simpa using hexit) hfuel
    simp only [Nat.zero_add] at hloop
    refine ⟨Event.consoleExit :: ((inputLoopTrace inp n).reverse ++
      ((threadSuspendTest p).2.log ++ [Event.consoleInit])), ?_, ?_, ?_⟩
    · unfold main
      simp only [hloop]
      rfl
    · simp [trace]
    · have hpass : ∀ i, (inputPass inp i).filterMap Event.mainLoopResult = [true] :=
        fun _ => rfl
      unfold inputLoopTrace
      rw [List.filterMap_append, List.filterMap_flatMap]
      simp only [hpass, ← List.map_eq_flatMap, List.map_const', List.length_range]
      cases inp.appletMainLoop n <;> rfl
  · intro fuel hcont
    have hloop := main_while_none b inp fuel 0
      ((threadSuspendTest p).2.log ++ [Event.consoleInit]) (by simpa using hcont)
    unfold main
    simp only [hloop]

/-- Witness for C4: with `KEY_PLUS` bit 10, masks 3 and 3 and then 1025 end
the loop in the third pass. -/
theorem C4_main_exits_on_plus_witness :
    ∃ log : Log,
      main (2 ^ 10) goodPlatform ⟨fun _ => true, fun n => if n = 2 then 1025 else 3⟩ 3 =
        some (0, log) ∧
      (inputLoopTrace ⟨fun _ => true, fun n => if n = 2 then 1025 else 3⟩ 2).filterMap
        Event.mainLoopResult = [true, true, true] := by
  obtain ⟨log, h1, _, h3⟩ := (C4_main_exits_on_plus 10 goodPlatform
    ⟨fun _ => true, fun n => if n = 2 then 1025 else 3⟩).1 2 3
    (by decide) (by decide) (by decide)
  exact ⟨log, h1, h3⟩

/-! ### Runs in which a check fails -/

/-- A run in which some check fails: the test steps stop at the first call
`e` that did not return its expected value, print the failure line, and the
`cleanup:` loop then waits for and closes exactly the array slots whose
`handle` field is non-zero at that point. -/
theorem failing_run (p : Platform) (h : ¬ChecksPass p) :
    ∃ (s : St) (line : Nat) (e : Event) (pre : Log) (cl : List Event),
      threadSuspendTest_steps p St.init = Except.error s ∧
      e.expected = false ∧ AllExpected pre ∧
      trace p = pre.reverse ++ e :: (test_printf (Msg.failed line e.failArg) []).reverse ++ cl ∧
      cl.map Event.threadOp = (cleanupCalls s.threads).map some ∧
      (∀ x ∈ (test_printf (Msg.failed line e.failArg) []).reverse ++ cl,
        x.isTestStep = false) ∧
      (threadSuspendTest p).1 = false := by
  have hspec := steps_spec p
  cases hr : threadSuspendTest_steps p St.init with
  | ok s => exact absurd ((checksPass_iff_ok p).2 ⟨s, hr⟩) h
  | error s =>
    rw [hr] at hspec
    obtain ⟨_, hres, line, e, pre, hl, he, hpre, _⟩ := hspec
    obtain ⟨cl, hcl, hops, hcr⟩ := cleanup_spec p s
    refine ⟨s, line, e, pre, cl.reverse, rfl, he, hpre, ?_, hops, ?_, ?_⟩
    · unfold trace threadSuspendTest
      rw [hr]
      simp only [hcl, hl, test_printf, List.reverse_append, List.reverse_cons, List.reverse_nil,
        List.nil_append, List.append_assoc, List.singleton_append, List.cons_append]
    · intro x hx
      rcases List.mem_append.1 hx with hx | hx
      · simp only [test_printf, List.reverse_cons, List.reverse_nil, List.nil_append,
          List.cons_append, List.mem_cons, List.not_mem_nil, or_false] at hx
        rcases hx with rfl | rfl | rfl | rfl <;> rfl
      · have hx' : Event.threadOp x ∈ cl.reverse.map Event.threadOp := List.mem_map_of_mem _ hx
        rw [hops] at hx'
        obtain ⟨c, hc, hcx⟩ := List.mem_map.1 hx'
        obtain ⟨i, _, hi⟩ := List.mem_flatMap.1 hc
        simp only [List.mem_cons, List.mem_singleton, List.not_mem_nil, or_false] at hi
        rcases hi with rfl | rfl <;> cases x <;>
          simp_all [Event.threadOp, Event.isTestStep]
    · unfold threadSuspendTest
      rw [hr]
      simp only [hcr, hres]

/-- Claim C3 at a failing input: when the self-suspend returns the unexpected
code `0xE401`, the failure line of its check (line 86) carries 0, the value of
the comparison `rc == 0xF401`, and not the return code; the failure line of a
check made with `assertZero` (line 109, return code `0xCE01`) does carry the
return code. -/
theorem C3_self_suspend_failure_line_prints_zero :
    Event.vprintf (Msg.failed 109 0xCE01) ∈ trace stalePlatform ∧
    trace refusedPlatform =
      [Event.clock_gettime { tv_sec := 100, tv_nsec := 500 },
       Event.mutexLock, Event.vprintf (Msg.started 500), Event.consoleUpdate, Event.mutexUnlock,
       Event.envGetMainThreadHandle 0xD001,
       Event.svcSetThreadActivity 0xD001 true 0xE401,
       Event.mutexLock, Event.vprintf (Msg.failed 86 0), Event.consoleUpdate,
       Event.mutexUnlock] ∧
    (threadSuspendTest refusedPlatform).1 = false := by
  decide

/-- Claim C9 at a failing input: the suspender thread in `threads[0]` is
closed at line 95, the `threadCreate` for worker 1 then fails, and the
`cleanup:` loop waits for and closes `threads[0]` a second time, because its
`handle` field is still non-zero. -/
theorem C9_cleanup_closes_closed_thread_again :
    (trace stalePlatform).filter (fun e => e.threadOp.isSome) =
      [Event.threadCreate 0 Entry.threadFuncSuspend (Arg.mainThreadHandle 0xD001) 131072 59 (-2) 0,
       Event.threadStart 0 0, Event.threadWaitForExit 0 0, Event.threadClose 0 0,
       Event.threadCreate 0 Entry.threadFuncLoop
         (Arg.args { num := 1, sem := threadSem, wait := false }) 131072 59 (-2) 0xCE01,
       Event.threadWaitForExit 0 0, Event.threadClose 0 0] ∧
    (stepsTrace stalePlatform).drop 17 =
      [Event.threadCreate 0 Entry.threadFuncLoop
         (Arg.args { num := 1, sem := threadSem, wait := false }) 131072 59 (-2) 0xCE01,
       Event.mutexLock, Event.vprintf (Msg.failed 109 0xCE01), Event.consoleUpdate,
       Event.mutexUnlock] ∧
    cleanupTrace stalePlatform = [Event.threadWaitForExit 0 0, Event.threadClose 0 0] ∧
    (threadSuspendTest stalePlatform).1 = false := by
  decide

/-- Claim C10 at a failing input: with the clock at 100 s + 500 ns on entry
and 108 s + 700 ns at the end, the `Ended threadSuspendTest` line prints the
diff 200, the difference of the nanosecond fields alone, while 8,000,000,200
ns have elapsed. -/
theorem C10_diff_drops_the_seconds :
    ((trace goodPlatform).filterMap Event.printed).getLast? = some (Msg.ended 700 200) ∧
    goodPlatform.clock_gettime 0 = { tv_sec := 100, tv_nsec := 500 } ∧
    goodPlatform.clock_gettime 1 = { tv_sec := 108, tv_nsec := 700 } ∧
    elapsedNs (goodPlatform.clock_gettime 0) (goodPlatform.clock_gettime 1) = 8000000200 := by
  decide

end NxSuspendTest
